import Mathlib

/-!
Verification development for the `deploy-vault` deployment script
(`scripts/deploy-vault.ts`).

The script reads environment-variable configuration, validates address and
amount fields, and issues a fixed sequence of contract deployments and write
transactions through an external chain-client library.  We embed it shallowly:

* the process environment is a lookup `Env : String → Option String`;
* the chain client is a record of the results each chain operation would
  return (an address for a deployment, unit for a write, or an error);
* the script body is a function producing the ordered list of chain
  operations it attempted together with its outcome (the reported addresses,
  or the error that aborted it).

External library functions the script calls (`viem.parseUnits`,
`encodeFunctionData`, JavaScript `Number` conversion) are not part of the
repository sources; each such definition carries a doc comment saying how it
was modelled.
-/

/-- Addresses travel through the script as plain strings. -/
abbrev Address := String

/-- The process environment: a partial map from variable names to values. -/
abbrev Env := String → Option String

/-- Result of the JavaScript `Number` conversion, restricted to the values
this development distinguishes: NaN, or an integer value. -/
inductive JsNum where
  | nan : JsNum
  | num (n : Int) : JsNum
deriving DecidableEq, Repr

/-- The failure modes of the script, as classified by the specification:
missing required variable, malformed address string, malformed decimal
numeral, or a failure reported by the chain client. -/
inductive ScriptError where
  | missingConfiguration (name : String) : ScriptError
  | invalidAddressFormat (name : String) : ScriptError
  | invalidAmountFormat (value : String) : ScriptError
  | chainFailure (message : String) : ScriptError
deriving DecidableEq, Repr

/-- An argument of an encoded contract call: an address or an amount. -/
inductive CallArg where
  | addr (a : Address) : CallArg
  | amount (v : Int) : CallArg
deriving DecidableEq, Repr

/-- Modelled from the spec: the viem `encodeFunctionData` helper is an external
collaborator performing "pure data encoding — no network call"; its output is
modelled as the function name paired with the ordered argument list, which is
exactly the information the script supplies to it. -/
structure EncodedCall where
  functionName : String
  args : List CallArg
deriving DecidableEq, Repr

def encodeFunctionData (functionName : String) (args : List CallArg) : EncodedCall :=
  ⟨functionName, args⟩

/-- The chain operations the script can attempt, in the shape it attempts
them (deployments with their constructor arguments, writes with their
arguments). -/
inductive ChainOp where
  | connect : ChainOp
  | getChainId : ChainOp
  | deployStrategy (asset aToken addressesProvider : Address) : ChainOp
  | deployImplementation : ChainOp
  | deployProxy (implementation : Address) (initData : EncodedCall) : ChainOp
  | setVault (strategy vaultAddress : Address) : ChainOp
  | setRebalancer (rebalancer : Address) : ChainOp
  | authorizeCaller (verifier vaultAddress : Address) : ChainOp
deriving DecidableEq, Repr

/-- The external chain client, as the orchestrator sees it: the deployer
account address, the chain id, and the result each fallible operation
would return if attempted. -/
structure ChainClient where
  deployer : Address
  chainId : Nat
  deployStrategyResult : Except String Address
  deployImplementationResult : Except String Address
  deployProxyResult : Except String Address
  setVaultResult : Except String Unit
  setRebalancerResult : Except String Unit
  authorizeCallerResult : Except String Unit

/-- The `DeployConfig` object built by `loadConfig`. -/
structure DeployConfig where
  asset : Address
  aToken : Address
  addressesProvider : Address
  verifier : Address
  maxUserDeposit : Int
  maxTotalDeposit : Int
  assetDecimals : JsNum
  rebalancer : Option Address
  authorizeVaultOnVerifier : Bool
deriving DecidableEq, Repr

/-- String prefix test, on the underlying character lists (the builtin
`String.startsWith` does not reduce inside the kernel). -/
def strStartsWith (s p : String) : Bool :=
  p.toList.isPrefixOf s.toList

/-- Test a predicate on every character of a string. -/
def strAll (s : String) (f : Char → Bool) : Bool :=
  s.toList.all f

/-- Drop the first `n` characters of a string. -/
def strDrop (s : String) (n : Nat) : String :=
  String.mk (s.toList.drop n)

/-- Trim ASCII whitespace from both ends of a string (JavaScript `Number`
trims its argument). -/
def strTrim (s : String) : String :=
  String.mk (((s.toList.dropWhile Char.isWhitespace).reverse.dropWhile
    Char.isWhitespace).reverse)

/-- Split a character list on a separator character; mirrors
`String.splitOn` with a one-character separator. -/
def splitOnChar (sep : Char) : List Char → List (List Char)
  | [] => [[]]
  | c :: cs =>
      let rest := splitOnChar sep cs
      if c = sep then [] :: rest
      else
        match rest with
        | [] => [[c]]
        | r :: rs => (c :: r) :: rs

/-- Digit characters to the natural number they spell (digits are assumed
checked by the caller). -/
def digitsToNat (cs : List Char) : Nat :=
  cs.foldl (fun n c => 10 * n + (c.toNat - Char.toNat (Char.ofNat 48))) 0

/-- Embeds `requireAddress` from the script: read the named variable; a missing or
empty (falsy) value raises the missing-configuration error; a value that does
not start with `0x` or whose length is not 42 raises the address-format
error; otherwise the value is returned as-is. -/
def requireAddress (env : Env) (name : String) : Except ScriptError Address :=
  match env name with
  | none => .error (.missingConfiguration name)
  | some value =>
      if value = "" then .error (.missingConfiguration name)
      else if !(strStartsWith value "0x") || value.length != 42 then
        .error (.invalidAddressFormat name)
      else .ok value

/-- Modelled from the spec: the JavaScript `Number` conversion applied by
`loadConfig` to `ASSET_DECIMALS` is a language builtin, not repository
source.  It is modelled on the fragment this development uses: the string is
whitespace-trimmed; an empty string converts to `0`; an optional sign
followed by decimal digits converts to the signed integer value; every other
string is outside the fragment and maps to NaN. -/
def jsNumber (s : String) : JsNum :=
  let t := strTrim s
  if t = "" then .num 0
  else
    let negative := strStartsWith t "-"
    let core := if strStartsWith t "-" || strStartsWith t "+" then strDrop t 1 else t
    if core != "" && strAll core Char.isDigit then
      .num ((if negative then -1 else 1) * (digitsToNat core.toList : Int))
    else .nan

/-- Whether a string is a decimal numeral representable at the given scale:
an optional minus sign, a non-empty run of digits, and optionally a dot
followed by at most `decimals` fractional digits. -/
def decimalNumeralAt (value : String) (decimals : Nat) : Bool :=
  let core := if strStartsWith value "-" then strDrop value 1 else value
  match splitOnChar (Char.ofNat 46) core.toList with
  | [intPart] => !intPart.isEmpty && intPart.all Char.isDigit
  | [intPart, fracPart] =>
      !intPart.isEmpty && intPart.all Char.isDigit &&
        fracPart.all Char.isDigit && decide (fracPart.length ≤ decimals)
  | _ => false

/-- Modelled from the spec: the viem `parseUnits` helper is an external library
function, not repository source.  Per the spec it "parses the decimal string
into a fixed-point integer scaled by `decimals`" and "fails with
`InvalidAmountFormat` if the string is not a valid decimal numeral
representable at that scale". -/
def parseUnits (value : String) (decimals : Nat) : Except ScriptError Int :=
  if decimalNumeralAt value decimals then
    let sign : Int := if strStartsWith value "-" then -1 else 1
    let core := if strStartsWith value "-" then strDrop value 1 else value
    match splitOnChar (Char.ofNat 46) core.toList with
    | [intPart] => .ok (sign * (digitsToNat intPart : Int) * (10 : Int) ^ decimals)
    | [intPart, fracPart] =>
        .ok (sign * ((digitsToNat intPart : Int) * (10 : Int) ^ decimals
          + (digitsToNat fracPart : Int) * (10 : Int) ^ (decimals - fracPart.length)))
    | _ => .error (.invalidAmountFormat value)
  else .error (.invalidAmountFormat value)

/-- Modelled from the spec: the `decimals` argument reaches `parseUnits` as a
JavaScript number.  A non-negative integer is used as the scale; the spec
never discusses a NaN or negative scale (JavaScript coerces such padding
lengths to zero), so those cases scale by zero. -/
def parseUnitsJs (value : String) (decimals : JsNum) : Except ScriptError Int :=
  match decimals with
  | .num d => if d ≥ 0 then parseUnits value d.toNat else parseUnits value 0
  | .nan => parseUnits value 0

/-- Embeds `getAmountEnv` from the script: read the named variable, falling
back to the supplied default when the variable is absent, and parse the
decimal string at the given scale. -/
def getAmountEnv (env : Env) (name : String) (decimals : JsNum) (fallback : String) :
    Except ScriptError Int :=
  parseUnitsJs ((env name).getD fallback) decimals

/-- Embeds `loadConfig` from the script.  The script computes
`assetDecimals` by `Number` on `ASSET_DECIMALS` (defaulting the string to
"18" when the variable is absent) before building the object; here the pure
expression `jsNumber ((env "ASSET_DECIMALS").getD "18")` appears inline at
each of its use sites, which is observationally identical.  The remaining
fields are evaluated in source order: the four required addresses, the two
amounts, then the unvalidated `rebalancer` value and the exact-match
authorization flag.  The first failure aborts the whole load. -/
def loadConfig (env : Env) : Except ScriptError DeployConfig :=
  match requireAddress env "ASSET_ADDRESS" with
  | .error e => .error e
  | .ok asset =>
  match requireAddress env "ATOKEN_ADDRESS" with
  | .error e => .error e
  | .ok aToken =>
  match requireAddress env "AAVE_PROVIDER_ADDRESS" with
  | .error e => .error e
  | .ok addressesProvider =>
  match requireAddress env "VERIFIER_ADDRESS" with
  | .error e => .error e
  | .ok verifier =>
  match getAmountEnv env "MAX_USER_DEPOSIT"
      (jsNumber ((env "ASSET_DECIMALS").getD "18")) "1000" with
  | .error e => .error e
  | .ok maxUserDeposit =>
  match getAmountEnv env "MAX_TOTAL_DEPOSIT"
      (jsNumber ((env "ASSET_DECIMALS").getD "18")) "10000" with
  | .error e => .error e
  | .ok maxTotalDeposit =>
      .ok
        { asset := asset
          aToken := aToken
          addressesProvider := addressesProvider
          verifier := verifier
          maxUserDeposit := maxUserDeposit
          maxTotalDeposit := maxTotalDeposit
          assetDecimals := jsNumber ((env "ASSET_DECIMALS").getD "18")
          rebalancer := env "REBALANCER_ADDRESS"
          authorizeVaultOnVerifier := env "AUTHORIZE_VAULT" == some "true" }

instance {ε α : Type} [DecidableEq ε] [DecidableEq α] : DecidableEq (Except ε α) := fun x y =>
  match x, y with
  | .error a, .error b => decidable_of_iff (a = b) (by simp)
  | .ok a, .ok b => decidable_of_iff (a = b) (by simp)
  | .error _, .ok _ => .isFalse fun h => nomatch h
  | .ok _, .error _ => .isFalse fun h => nomatch h

/-- The observable result of one run: the chain operations attempted, in
order, and the outcome (the list of reported addresses, or the error that
aborted the run). -/
structure RunResult where
  ops : List ChainOp
  outcome : Except ScriptError (List Address)
deriving DecidableEq, Repr

/-- Final conditional step: authorize the vault (proxy) on the verifier when
the flag is set, then report the strategy, implementation and proxy
addresses. -/
def authorizeStep (params : DeployConfig) (client : ChainClient) (ops : List ChainOp)
    (strategyAddress implementationAddress proxyAddress : Address) : RunResult :=
  if params.authorizeVaultOnVerifier then
    match client.authorizeCallerResult with
    | .error e =>
        ⟨ops ++ [.authorizeCaller params.verifier proxyAddress], .error (.chainFailure e)⟩
    | .ok _ =>
        ⟨ops ++ [.authorizeCaller params.verifier proxyAddress],
          .ok [strategyAddress, implementationAddress, proxyAddress]⟩
  else ⟨ops, .ok [strategyAddress, implementationAddress, proxyAddress]⟩

/-- Conditional rebalancer step: when a rebalancer value is configured, is
truthy (non-empty), and differs from the deployer address, write it to the
vault; otherwise fall through. -/
def rebalancerStep (params : DeployConfig) (client : ChainClient) (ops : List ChainOp)
    (strategyAddress implementationAddress proxyAddress : Address) : RunResult :=
  match params.rebalancer with
  | some r =>
      if r != "" && r != client.deployer then
        match client.setRebalancerResult with
        | .error e => ⟨ops ++ [.setRebalancer r], .error (.chainFailure e)⟩
        | .ok _ =>
            authorizeStep params client (ops ++ [.setRebalancer r])
              strategyAddress implementationAddress proxyAddress
      else authorizeStep params client ops strategyAddress implementationAddress proxyAddress
  | none => authorizeStep params client ops strategyAddress implementationAddress proxyAddress

/-- The deployment sequence run with an already-loaded configuration: connect
and read the chain id, deploy the strategy (asset, aToken, provider), deploy
the vault implementation, encode the initializer, deploy the proxy
(implementation, initializer data), link the strategy to the vault at the
proxy address, then the conditional steps.  Any chain failure aborts
immediately with the operations attempted so far. -/
def deploySequence (params : DeployConfig) (client : ChainClient) : RunResult :=
  let ops := [ChainOp.connect, ChainOp.getChainId]
  match client.deployStrategyResult with
  | .error e =>
      ⟨ops ++ [.deployStrategy params.asset params.aToken params.addressesProvider],
        .error (.chainFailure e)⟩
  | .ok strategyAddress =>
    let ops := ops ++ [ChainOp.deployStrategy params.asset params.aToken params.addressesProvider]
    match client.deployImplementationResult with
    | .error e => ⟨ops ++ [.deployImplementation], .error (.chainFailure e)⟩
    | .ok implementationAddress =>
      let ops := ops ++ [ChainOp.deployImplementation]
      let initData := encodeFunctionData "initialize"
        [.addr params.asset, .addr strategyAddress, .addr params.verifier,
          .amount params.maxUserDeposit, .amount params.maxTotalDeposit]
      match client.deployProxyResult with
      | .error e => ⟨ops ++ [.deployProxy implementationAddress initData], .error (.chainFailure e)⟩
      | .ok proxyAddress =>
        let ops := ops ++ [ChainOp.deployProxy implementationAddress initData]
        match client.setVaultResult with
        | .error e => ⟨ops ++ [.setVault strategyAddress proxyAddress], .error (.chainFailure e)⟩
        | .ok _ =>
            rebalancerStep params client (ops ++ [.setVault strategyAddress proxyAddress])
              strategyAddress implementationAddress proxyAddress

/-- The whole script: load the configuration (before any chain interaction),
then run the deployment sequence.  A configuration error aborts before any
chain operation is attempted. -/
def runScript (env : Env) (client : ChainClient) : RunResult :=
  match loadConfig env with
  | .error e => ⟨[], .error e⟩
  | .ok params => deploySequence params client

/-- The required address environment variables, in the order `loadConfig`
reads them. -/
def requiredAddressNames : List String :=
  ["ASSET_ADDRESS", "ATOKEN_ADDRESS", "AAVE_PROVIDER_ADDRESS", "VERIFIER_ADDRESS"]

/-- The 20-byte hex address pattern the specification describes: `0x`, then
exactly 40 hexadecimal digits (length 42 in total). -/
def matchesAddressPattern (s : String) : Bool :=
  strStartsWith s "0x" && s.length == 42 && strAll (strDrop s 2) fun c =>
    c.isDigit || (Char.toNat (Char.ofNat 97) ≤ c.toNat && c.toNat ≤ Char.toNat (Char.ofNat 102))
      || (Char.toNat (Char.ofNat 65) ≤ c.toNat && c.toNat ≤ Char.toNat (Char.ofNat 70))

/-- Whether a chain operation is one of the steps after proxy deployment:
the vault link, the rebalancer write, or the verifier authorization. -/
def isPostProxyStep : ChainOp → Bool
  | .setVault _ _ => true
  | .setRebalancer _ => true
  | .authorizeCaller _ _ => true
  | _ => false

/-- Remove one variable from an environment. -/
def envWithout (env : Env) (name : String) : Env :=
  fun n => if n = name then none else env n

/-! Concrete fixtures: addresses, environments, clients and the
configurations they load, used to instantiate the general theorems. -/

def addrAsset : Address := "0xaaaaaaaaaaaaaaaaaaaaaaaaaaaaaaaaaaaaaaaa"

def addrAToken : Address := "0xbbbbbbbbbbbbbbbbbbbbbbbbbbbbbbbbbbbbbbbb"

def addrProvider : Address := "0xcccccccccccccccccccccccccccccccccccccccc"

def addrVerifier : Address := "0xdddddddddddddddddddddddddddddddddddddddd"

def addrDeployer : Address := "0x9999999999999999999999999999999999999999"

def addrStrategy : Address := "0x1111111111111111111111111111111111111111"

def addrImpl : Address := "0x2222222222222222222222222222222222222222"

def addrProxy : Address := "0x3333333333333333333333333333333333333333"

/-- Length 42, starts with `0x`, but the 40 remaining characters are not
hexadecimal digits. -/
def nonHexValue : Address := "0xzzzzzzzzzzzzzzzzzzzzzzzzzzzzzzzzzzzzzzzz"

/-- A minimal valid environment: exactly the four required addresses. -/
def envBase : Env := fun n =>
  if n = "ASSET_ADDRESS" then some addrAsset
  else if n = "ATOKEN_ADDRESS" then some addrAToken
  else if n = "AAVE_PROVIDER_ADDRESS" then some addrProvider
  else if n = "VERIFIER_ADDRESS" then some addrVerifier
  else none

/-- The base environment with a non-hex (but `0x`-prefixed, length-42) asset
address. -/
def envNonHexAsset : Env := fun n =>
  if n = "ASSET_ADDRESS" then some nonHexValue else envBase n

/-- An environment whose only variable is a too-short asset address. -/
def envShortAsset : Env := fun n =>
  if n = "ASSET_ADDRESS" then some "0x123" else none

/-- The base environment with a non-numeric `ASSET_DECIMALS`. -/
def envBadDecimals : Env := fun n =>
  if n = "ASSET_DECIMALS" then some "abc" else envBase n

/-- The end-to-end scenario environment: valid addresses,
`MAX_USER_DEPOSIT=500`, `ASSET_DECIMALS=6`, no rebalancer, `AUTHORIZE_VAULT`
unset. -/
def envScenario : Env := fun n =>
  if n = "MAX_USER_DEPOSIT" then some "500"
  else if n = "ASSET_DECIMALS" then some "6"
  else envBase n

/-- The base environment with the asset address removed. -/
def envMissingAsset : Env := fun n =>
  if n = "ASSET_ADDRESS" then none else envBase n

/-- The base environment with `AUTHORIZE_VAULT` set to the wrong-case
string. -/
def envAuthUpper : Env := fun n =>
  if n = "AUTHORIZE_VAULT" then some "TRUE" else envBase n

/-- The base environment with the rebalancer set to the deployer account
address. -/
def envRebalancerDeployer : Env := fun n =>
  if n = "REBALANCER_ADDRESS" then some addrDeployer else envBase n

/-- The base environment with the rebalancer set to the empty string. -/
def envRebalancerEmpty : Env := fun n =>
  if n = "REBALANCER_ADDRESS" then some "" else envBase n

/-- An environment carrying only a deposit amount. -/
def envAmount1000 : Env := fun n =>
  if n = "MAX_USER_DEPOSIT" then some "1000" else none

/-- A chain client for which every operation succeeds. -/
def clientOK : ChainClient :=
  { deployer := addrDeployer
    chainId := 31337
    deployStrategyResult := .ok addrStrategy
    deployImplementationResult := .ok addrImpl
    deployProxyResult := .ok addrProxy
    setVaultResult := .ok ()
    setRebalancerResult := .ok ()
    authorizeCallerResult := .ok () }

/-- A chain client whose proxy deployment fails. -/
def clientProxyFails : ChainClient :=
  { clientOK with deployProxyResult := .error "rpc failure" }

/-- The configuration loaded from `envBase`. -/
def cfgBase : DeployConfig :=
  { asset := addrAsset
    aToken := addrAToken
    addressesProvider := addrProvider
    verifier := addrVerifier
    maxUserDeposit := 1000 * 10 ^ 18
    maxTotalDeposit := 10000 * 10 ^ 18
    assetDecimals := .num 18
    rebalancer := none
    authorizeVaultOnVerifier := false }

/-- The configuration loaded from `envScenario`. -/
def cfgScenario : DeployConfig :=
  { cfgBase with
      maxUserDeposit := 500 * 10 ^ 6
      maxTotalDeposit := 10000 * 10 ^ 6
      assetDecimals := .num 6 }

/-- The configuration loaded from `envRebalancerDeployer`. -/
def cfgRebalancerDeployer : DeployConfig :=
  { cfgBase with rebalancer := some addrDeployer }

/-- The configuration loaded from `envRebalancerEmpty`. -/
def cfgRebalancerEmpty : DeployConfig :=
  { cfgBase with rebalancer := some "" }

/-- The configuration loaded from `envAuthUpper`. -/
def cfgAuthUpper : DeployConfig := cfgBase

/-! Helper lemmas shared by several of the claim theorems below. -/

/-- A successful `loadConfig` determines every field of the configuration
from the environment. -/
theorem loadConfig_ok_spec (env : Env) (cfg : DeployConfig)
    (h : loadConfig env = .ok cfg) :
    requireAddress env "ASSET_ADDRESS" = .ok cfg.asset ∧
    requireAddress env "ATOKEN_ADDRESS" = .ok cfg.aToken ∧
    requireAddress env "AAVE_PROVIDER_ADDRESS" = .ok cfg.addressesProvider ∧
    requireAddress env "VERIFIER_ADDRESS" = .ok cfg.verifier ∧
    getAmountEnv env "MAX_USER_DEPOSIT"
      (jsNumber ((env "ASSET_DECIMALS").getD "18")) "1000" = .ok cfg.maxUserDeposit ∧
    getAmountEnv env "MAX_TOTAL_DEPOSIT"
      (jsNumber ((env "ASSET_DECIMALS").getD "18")) "10000" = .ok cfg.maxTotalDeposit ∧
    cfg.assetDecimals = jsNumber ((env "ASSET_DECIMALS").getD "18") ∧
    cfg.rebalancer = env "REBALANCER_ADDRESS" ∧
    cfg.authorizeVaultOnVerifier = (env "AUTHORIZE_VAULT" == some "true") := by
  unfold loadConfig at h
  split at h
  · simp at h
  rename_i asset hAsset
  split at h
  · simp at h
  rename_i aToken hAToken
  split at h
  · simp at h
  rename_i provider hProvider
  split at h
  · simp at h
  rename_i verifier hVerifier
  split at h
  · simp at h
  rename_i maxUser hMaxUser
  split at h
  · simp at h
  rename_i maxTotal hMaxTotal
  injection h with h
  subst h
  exact ⟨hAsset, hAToken, hProvider, hVerifier, hMaxUser, hMaxTotal, rfl, rfl, rfl⟩

/-- `requireAddress` depends on the environment only through the named
variable. -/
theorem requireAddress_congr (env1 env2 : Env) (name : String)
    (h : env1 name = env2 name) :
    requireAddress env1 name = requireAddress env2 name := by
  unfold requireAddress
  rw [h]

/-- `getAmountEnv` depends on the environment only through the named
variable. -/
theorem getAmountEnv_congr (env1 env2 : Env) (name : String) (decimals : JsNum)
    (fallback : String) (h : env1 name = env2 name) :
    getAmountEnv env1 name decimals fallback = getAmountEnv env2 name decimals fallback := by
  unfold getAmountEnv
  rw [h]

/-- The authorize step only ever appends to the operations done so far. -/
theorem authorizeStep_ops_append (params : DeployConfig) (client : ChainClient)
    (ops : List ChainOp) (s i p : Address) :
    ∃ t, (authorizeStep params client ops s i p).ops = ops ++ t := by
  unfold authorizeStep
  by_cases hf : params.authorizeVaultOnVerifier = true
  · rw [if_pos hf]
    rcases client.authorizeCallerResult with e | u
    · exact ⟨_, rfl⟩
    · exact ⟨_, rfl⟩
  · rw [if_neg hf]
    exact ⟨[], (List.append_nil ops).symm⟩

/-- The rebalancer step only ever appends to the operations done so far. -/
theorem rebalancerStep_ops_append (params : DeployConfig) (client : ChainClient)
    (ops : List ChainOp) (s i p : Address) :
    ∃ t, (rebalancerStep params client ops s i p).ops = ops ++ t := by
  rcases hreb : params.rebalancer with _ | r
  · simp only [rebalancerStep, hreb]
    exact authorizeStep_ops_append params client ops s i p
  · by_cases hcond : (r != "" && r != client.deployer) = true
    · simp only [rebalancerStep, hreb, hcond, if_true]
      rcases hres : client.setRebalancerResult with e | u
      · exact ⟨_, rfl⟩
      · obtain ⟨t, ht⟩ :=
          authorizeStep_ops_append params client (ops ++ [.setRebalancer r]) s i p
        exact ⟨[ChainOp.setRebalancer r] ++ t, by rw [ht, List.append_assoc]⟩
    · simp only [rebalancerStep, hreb, hcond, if_false, Bool.false_eq_true]
      exact authorizeStep_ops_append params client ops s i p

/-- A rebalancer write in the output of the authorize step must already be
among the operations passed in. -/
theorem setRebalancer_mem_authorizeStep (params : DeployConfig) (client : ChainClient)
    (ops : List ChainOp) (s i p r : Address)
    (h : ChainOp.setRebalancer r ∈ (authorizeStep params client ops s i p).ops) :
    ChainOp.setRebalancer r ∈ ops := by
  unfold authorizeStep at h
  by_cases hf : params.authorizeVaultOnVerifier = true
  · rw [if_pos hf] at h
    rcases hres : client.authorizeCallerResult with e | u <;> simp [hres] at h <;>
      simpa using h
  · rwa [if_neg hf] at h

/-- A rebalancer write in the output of the rebalancer step is either one
already passed in, or the configured rebalancer value, which is then
non-empty and different from the deployer account address. -/
theorem setRebalancer_mem_rebalancerStep (params : DeployConfig) (client : ChainClient)
    (ops : List ChainOp) (s i p r : Address)
    (hops : ChainOp.setRebalancer r ∉ ops)
    (h : ChainOp.setRebalancer r ∈ (rebalancerStep params client ops s i p).ops) :
    params.rebalancer = some r ∧ r ≠ "" ∧ r ≠ client.deployer := by
  rcases hreb : params.rebalancer with _ | r0
  · rw [rebalancerStep, hreb] at h
    exact absurd (setRebalancer_mem_authorizeStep params client ops s i p r h) hops
  · by_cases hcond : (r0 != "" && r0 != client.deployer) = true
    · simp only [rebalancerStep, hreb, hcond, if_true] at h
      simp only [bne_iff_ne, ne_eq, Bool.and_eq_true, decide_eq_true_eq] at hcond
      have hr0 : r = r0 := by
        rcases hres : client.setRebalancerResult with e | u <;> simp only [hres] at h
        · simp only [List.mem_append, List.mem_singleton] at h
          rcases h with h | h
          · exact absurd h hops
          · exact (ChainOp.setRebalancer.injEq r r0).mp h
        · have h2 := setRebalancer_mem_authorizeStep params client
            (ops ++ [.setRebalancer r0]) s i p r h
          simp only [List.mem_append, List.mem_singleton] at h2
          rcases h2 with h2 | h2
          · exact absurd h2 hops
          · exact (ChainOp.setRebalancer.injEq r r0).mp h2
      subst hr0
      exact ⟨rfl, hcond⟩
    · simp only [rebalancerStep, hreb, hcond, if_false, Bool.false_eq_true] at h
      exact absurd (setRebalancer_mem_authorizeStep params client ops s i p r h) hops

/-- A rebalancer write in the trace of the deployment sequence can only come
from the conditional rebalancer step, so it carries the configured value,
which is non-empty and distinct from the deployer account address. -/
theorem setRebalancer_mem_deploySequence (params : DeployConfig) (client : ChainClient)
    (r : Address)
    (h : ChainOp.setRebalancer r ∈ (deploySequence params client).ops) :
    params.rebalancer = some r ∧ r ≠ "" ∧ r ≠ client.deployer := by
  unfold deploySequence at h
  rcases hS : client.deployStrategyResult with e | s <;> simp only [hS] at h
  · simp at h
  rcases hI : client.deployImplementationResult with e | i <;> simp only [hI] at h
  · simp at h
  rcases hP : client.deployProxyResult with e | p <;> simp only [hP] at h
  · simp at h
  rcases hV : client.setVaultResult with e | u <;> simp only [hV] at h
  · simp at h
  exact setRebalancer_mem_rebalancerStep params client _ s i p r (by simp) h

/-- With a loaded configuration, the script is the deployment sequence. -/
theorem runScript_ok (env : Env) (client : ChainClient) (cfg : DeployConfig)
    (hc : loadConfig env = .ok cfg) :
    runScript env client = deploySequence cfg client := by
  simp only [runScript, hc]

/-- Removing `REBALANCER_ADDRESS` from the environment changes the loaded
configuration only by clearing its `rebalancer` field. -/
theorem loadConfig_envWithoutReb (env : Env) :
    loadConfig (envWithout env "REBALANCER_ADDRESS") =
      (loadConfig env).map fun c => { c with rebalancer := none } := by
  have h1 : ∀ n, n ≠ "REBALANCER_ADDRESS" → envWithout env "REBALANCER_ADDRESS" n = env n := by
    intro n hn
    simp [envWithout, hn]
  unfold loadConfig
  rw [requireAddress_congr _ env "ASSET_ADDRESS" (h1 _ (by decide)),
    requireAddress_congr _ env "ATOKEN_ADDRESS" (h1 _ (by decide)),
    requireAddress_congr _ env "AAVE_PROVIDER_ADDRESS" (h1 _ (by decide)),
    requireAddress_congr _ env "VERIFIER_ADDRESS" (h1 _ (by decide)),
    h1 "ASSET_DECIMALS" (by decide),
    getAmountEnv_congr _ env "MAX_USER_DEPOSIT" _ _ (h1 _ (by decide)),
    getAmountEnv_congr _ env "MAX_TOTAL_DEPOSIT" _ _ (h1 _ (by decide)),
    h1 "AUTHORIZE_VAULT" (by decide)]
  have h2 : envWithout env "REBALANCER_ADDRESS" "REBALANCER_ADDRESS" = none := by
    simp [envWithout]
  rw [h2]
  rcases requireAddress env "ASSET_ADDRESS" with e | asset
  · simp [Except.map]
  rcases requireAddress env "ATOKEN_ADDRESS" with e | aToken
  · simp [Except.map]
  rcases requireAddress env "AAVE_PROVIDER_ADDRESS" with e | provider
  · simp [Except.map]
  rcases requireAddress env "VERIFIER_ADDRESS" with e | verifier
  · simp [Except.map]
  rcases getAmountEnv env "MAX_USER_DEPOSIT"
      (jsNumber ((env "ASSET_DECIMALS").getD "18")) "1000" with e | maxUser
  · simp [Except.map]
  rcases getAmountEnv env "MAX_TOTAL_DEPOSIT"
      (jsNumber ((env "ASSET_DECIMALS").getD "18")) "10000" with e | maxTotal
  · simp [Except.map]
  · simp [Except.map]

/-- When the configured rebalancer is the empty string, clearing it does not
change the behaviour of the deployment sequence. -/
theorem deploySequence_erase_rebalancer (params : DeployConfig) (client : ChainClient)
    (h : params.rebalancer = some "") :
    deploySequence { params with rebalancer := none } client = deploySequence params client := by
  unfold deploySequence
  rcases client.deployStrategyResult with e | s
  · simp
  rcases client.deployImplementationResult with e | i
  · simp
  rcases client.deployProxyResult with e | p
  · simp
  rcases client.setVaultResult with e | u
  · simp
  · simp only [rebalancerStep, h]
    simp [authorizeStep]

/-! Claim theorems. -/

/-- C1 counterexample: a value of length 42 starting with `0x` but made of
non-hex characters does not match the 20-byte hex pattern, yet
`requireAddress` returns it instead of failing with the address-format
error. -/
theorem requireAddress_nonhex_accepted :
    matchesAddressPattern nonHexValue = false ∧
    requireAddress envNonHexAsset "ASSET_ADDRESS" = .ok nonHexValue := by
  decide

/-- C1 (amended): for a present, non-empty value, `requireAddress` fails
with the address-format error exactly when the value does not start with
`0x` or has length other than 42; a `0x`-prefixed string of length 42 is
returned unchanged even when it contains non-hex characters, so hex digits
are never checked. -/
theorem requireAddress_format_check_amended (env : Env) (name value : String)
    (hv : env name = some value) (hne : value ≠ "") :
    (requireAddress env name = .error (.invalidAddressFormat name) ↔
      (strStartsWith value "0x" = false ∨ value.length ≠ 42)) ∧
    (strStartsWith value "0x" = true → value.length = 42 →
      requireAddress env name = .ok value) := by
  unfold requireAddress
  rw [hv]
  by_cases h0 : strStartsWith value "0x"
  · by_cases hl : value.length = 42
    · simp [hne, h0, hl]
    · simp [hne, h0, hl]
  · simp [hne, h0]

/-- C1 witness: a too-short value is rejected with the address-format
error. -/
theorem requireAddress_format_check_witness :
    requireAddress envShortAsset "ASSET_ADDRESS" =
      .error (.invalidAddressFormat "ASSET_ADDRESS") :=
  ((requireAddress_format_check_amended envShortAsset "ASSET_ADDRESS" "0x123"
    (by decide) (by decide)).1).mpr (by decide)

/-- C2 counterexample: with `ASSET_DECIMALS` set to a string whose numeric
parsing fails, the configuration loads successfully but its `assetDecimals`
field is NaN, not 18. -/
theorem assetDecimals_nonnumeric_nan :
    jsNumber "abc" = JsNum.nan ∧
    (loadConfig envBadDecimals).map DeployConfig.assetDecimals = .ok JsNum.nan ∧
    (loadConfig envBadDecimals).map DeployConfig.assetDecimals ≠ .ok (JsNum.num 18) := by
  decide

/-- C2 (amended): when `ASSET_DECIMALS` is unset the loaded configuration
has `assetDecimals` equal to 18 (the default string "18" is converted); when
it is set to a string whose `Number` conversion is NaN, the field is NaN
rather than 18. -/
theorem assetDecimals_default_amended (env : Env) (cfg : DeployConfig)
    (hc : loadConfig env = .ok cfg) :
    (env "ASSET_DECIMALS" = none → cfg.assetDecimals = .num 18) ∧
    (∀ s, env "ASSET_DECIMALS" = some s → jsNumber s = .nan →
      cfg.assetDecimals = .nan) := by
  have hfield := (loadConfig_ok_spec env cfg hc).2.2.2.2.2.2.1
  constructor
  · intro h
    rw [hfield, h]
    decide
  · intro s h hnan
    rw [hfield, h]
    simpa using hnan

/-- C2 witness: on the base environment, where `ASSET_DECIMALS` is unset,
the loaded decimals are 18. -/
theorem assetDecimals_default_witness :
    cfgBase.assetDecimals = JsNum.num 18 :=
  (assetDecimals_default_amended envBase cfgBase (by decide)).1 (by decide)

/-- C3: in the end-to-end scenario environment (valid addresses,
MAX_USER_DEPOSIT 500, ASSET_DECIMALS 6, no rebalancer, AUTHORIZE_VAULT
unset), with every chain operation succeeding, the orchestrator deploys the
strategy, then the implementation, then the proxy, in that order; issues
`setVault` exactly once, with the proxy address; never issues
`setRebalancer` or `authorizeCaller`; and reports exactly the three
addresses strategy, implementation, proxy. -/
theorem deploy_sequence_happy_path (client : ChainClient) (s i p : Address)
    (hs : client.deployStrategyResult = .ok s)
    (hi : client.deployImplementationResult = .ok i)
    (hp : client.deployProxyResult = .ok p)
    (hv : client.setVaultResult = .ok ()) :
    runScript envScenario client =
      ⟨[.connect, .getChainId, .deployStrategy addrAsset addrAToken addrProvider,
        .deployImplementation,
        .deployProxy i (encodeFunctionData "initialize"
          [.addr addrAsset, .addr s, .addr addrVerifier,
            .amount (500 * 10 ^ 6), .amount (10000 * 10 ^ 6)]),
        .setVault s p],
        .ok [s, i, p]⟩ := by
  have hc : loadConfig envScenario = .ok cfgScenario := by decide
  rw [runScript_ok envScenario client cfgScenario hc]
  simp [deploySequence, hs, hi, hp, hv, rebalancerStep, authorizeStep,
    cfgScenario, cfgBase]

/-- C3 witness: the scenario run against the all-success client. -/
theorem deploy_sequence_happy_path_witness :
    runScript envScenario clientOK =
      ⟨[.connect, .getChainId, .deployStrategy addrAsset addrAToken addrProvider,
        .deployImplementation,
        .deployProxy addrImpl (encodeFunctionData "initialize"
          [.addr addrAsset, .addr addrStrategy, .addr addrVerifier,
            .amount (500 * 10 ^ 6), .amount (10000 * 10 ^ 6)]),
        .setVault addrStrategy addrProxy],
        .ok [addrStrategy, addrImpl, addrProxy]⟩ :=
  deploy_sequence_happy_path clientOK addrStrategy addrImpl addrProxy rfl rfl rfl rfl

/-- C4: when a required address variable is absent or empty (and the other
required addresses are loadable, so that this is the variable at fault),
configuration loading fails with the missing-configuration error naming that
variable, and the script attempts no chain operation at all. -/
theorem missing_required_aborts (env : Env) (client : ChainClient) (name : String)
    (hmem : name ∈ requiredAddressNames)
    (habs : env name = none ∨ env name = some "")
    (hothers : ∀ n ∈ requiredAddressNames, n ≠ name → (requireAddress env n).isOk = true) :
    runScript env client = ⟨[], .error (.missingConfiguration name)⟩ := by
  have hfail : requireAddress env name = .error (.missingConfiguration name) := by
    unfold requireAddress
    rcases habs with h | h <;> simp [h]
  have hok : ∀ n, n ∈ requiredAddressNames → n ≠ name →
      ∃ v, requireAddress env n = .ok v := by
    intro n hn hne
    rcases hres : requireAddress env n with e | v
    · have hx := hothers n hn hne
      rw [hres] at hx
      simp [Except.isOk, Except.toBool] at hx
    · exact ⟨v, rfl⟩
  simp only [requiredAddressNames, List.mem_cons, List.not_mem_nil, or_false] at hmem
  rcases hmem with rfl | rfl | rfl | rfl
  · simp [runScript, loadConfig, hfail]
  · obtain ⟨v1, h1⟩ := hok "ASSET_ADDRESS" (by simp [requiredAddressNames]) (by decide)
    simp [runScript, loadConfig, h1, hfail]
  · obtain ⟨v1, h1⟩ := hok "ASSET_ADDRESS" (by simp [requiredAddressNames]) (by decide)
    obtain ⟨v2, h2⟩ := hok "ATOKEN_ADDRESS" (by simp [requiredAddressNames]) (by decide)
    simp [runScript, loadConfig, h1, h2, hfail]
  · obtain ⟨v1, h1⟩ := hok "ASSET_ADDRESS" (by simp [requiredAddressNames]) (by decide)
    obtain ⟨v2, h2⟩ := hok "ATOKEN_ADDRESS" (by simp [requiredAddressNames]) (by decide)
    obtain ⟨v3, h3⟩ := hok "AAVE_PROVIDER_ADDRESS" (by simp [requiredAddressNames]) (by decide)
    simp [runScript, loadConfig, h1, h2, h3, hfail]

/-- C4 witness: with `ASSET_ADDRESS` removed from the base environment the
script fails naming it, attempting nothing on chain. -/
theorem missing_required_aborts_witness :
    runScript envMissingAsset clientOK =
      ⟨[], .error (.missingConfiguration "ASSET_ADDRESS")⟩ :=
  missing_required_aborts envMissingAsset clientOK "ASSET_ADDRESS"
    (by decide) (Or.inl (by decide)) (by decide)

/-- C5: when the proxy deployment fails, the trace contains no post-proxy
step — no `setVault`, no `setRebalancer`, no `authorizeCaller` — and the
outcome is exactly the chain failure that the proxy deployment reported. -/
theorem proxy_failure_aborts (env : Env) (client : ChainClient) (cfg : DeployConfig)
    (s i : Address) (e : String)
    (hc : loadConfig env = .ok cfg)
    (hs : client.deployStrategyResult = .ok s)
    (hi : client.deployImplementationResult = .ok i)
    (hp : client.deployProxyResult = .error e) :
    ((runScript env client).ops.all fun op => !isPostProxyStep op) = true ∧
    (runScript env client).outcome = .error (.chainFailure e) := by
  have hrun : runScript env client =
      ⟨[.connect, .getChainId, .deployStrategy cfg.asset cfg.aToken cfg.addressesProvider,
        .deployImplementation,
        .deployProxy i (encodeFunctionData "initialize"
          [.addr cfg.asset, .addr s, .addr cfg.verifier,
            .amount cfg.maxUserDeposit, .amount cfg.maxTotalDeposit])],
        .error (.chainFailure e)⟩ := by
    rw [runScript_ok env client cfg hc]
    simp [deploySequence, hs, hi, hp]
  rw [hrun]
  exact ⟨by simp [isPostProxyStep], rfl⟩

/-- C5 witness: the base environment run against the client whose proxy
deployment fails. -/
theorem proxy_failure_aborts_witness :
    ((runScript envBase clientProxyFails).ops.all fun op => !isPostProxyStep op) = true ∧
    (runScript envBase clientProxyFails).outcome =
      .error (.chainFailure "rpc failure") :=
  proxy_failure_aborts envBase clientProxyFails cfgBase addrStrategy addrImpl "rpc failure"
    (by decide) rfl rfl rfl

/-- C6: the authorization flag of a loaded configuration is true exactly
when `AUTHORIZE_VAULT` is the exact case-sensitive string "true"; in
particular "TRUE", "1" and an unset variable all yield false. -/
theorem authorize_flag_exact_match (env : Env) (cfg : DeployConfig)
    (hc : loadConfig env = .ok cfg) :
    (cfg.authorizeVaultOnVerifier = true ↔ env "AUTHORIZE_VAULT" = some "true") ∧
    (env "AUTHORIZE_VAULT" = some "TRUE" → cfg.authorizeVaultOnVerifier = false) ∧
    (env "AUTHORIZE_VAULT" = some "1" → cfg.authorizeVaultOnVerifier = false) ∧
    (env "AUTHORIZE_VAULT" = none → cfg.authorizeVaultOnVerifier = false) := by
  have hfield := (loadConfig_ok_spec env cfg hc).2.2.2.2.2.2.2.2
  refine ⟨?_, ?_, ?_, ?_⟩
  · rw [hfield]
    exact beq_iff_eq
  · intro h
    rw [hfield, h]
    decide
  · intro h
    rw [hfield, h]
    decide
  · intro h
    rw [hfield, h]
    decide

/-- C6 witness: `AUTHORIZE_VAULT` set to "TRUE" yields a false flag. -/
theorem authorize_flag_exact_match_witness :
    cfgAuthUpper.authorizeVaultOnVerifier = false :=
  (authorize_flag_exact_match envAuthUpper cfgAuthUpper (by decide)).2.1 (by decide)

/-- C7: a rebalancer equal to the deployer account address is never written
even though it is configured, and any `setRebalancer` write that does occur
carries the configured value, which is non-empty and distinct from the
deployer account address. -/
theorem rebalancer_skip_deployer (env : Env) (client : ChainClient) (cfg : DeployConfig)
    (hc : loadConfig env = .ok cfg) :
    (cfg.rebalancer = some client.deployer →
      ∀ r, ChainOp.setRebalancer r ∉ (runScript env client).ops) ∧
    (∀ r, ChainOp.setRebalancer r ∈ (runScript env client).ops →
      cfg.rebalancer = some r ∧ r ≠ "" ∧ r ≠ client.deployer) := by
  have hrun := runScript_ok env client cfg hc
  constructor
  · intro hd r hmem
    rw [hrun] at hmem
    obtain ⟨h1, _, h3⟩ := setRebalancer_mem_deploySequence cfg client r hmem
    rw [hd] at h1
    injection h1 with h1
    exact h3 h1.symm
  · intro r hmem
    rw [hrun] at hmem
    exact setRebalancer_mem_deploySequence cfg client r hmem

/-- C7 witness: with the rebalancer configured to the deployer account
address, no rebalancer write appears in the trace. -/
theorem rebalancer_skip_deployer_witness :
    ChainOp.setRebalancer addrDeployer ∉ (runScript envRebalancerDeployer clientOK).ops :=
  (rebalancer_skip_deployer envRebalancerDeployer clientOK cfgRebalancerDeployer
    (by decide)).1 (by decide) addrDeployer

/-- C8: `getAmountEnv` at 18 decimals turns the value "1000" into the
integer 1000 * 10 ^ 18; a value that is not a decimal numeral representable
at scale 18 produces the invalid-amount error; and when the variable is
unset the supplied fallback string is parsed instead. -/
theorem getAmountEnv_spec (env : Env) (name fallback : String) :
    (env name = some "1000" →
      getAmountEnv env name (.num 18) fallback = .ok (1000 * 10 ^ 18)) ∧
    (∀ s, env name = some s → decimalNumeralAt s 18 = false →
      getAmountEnv env name (.num 18) fallback = .error (.invalidAmountFormat s)) ∧
    (env name = none →
      getAmountEnv env name (.num 18) fallback = parseUnits fallback 18) := by
  refine ⟨?_, ?_, ?_⟩
  · intro h
    simp only [getAmountEnv, h, Option.getD_some]
    decide
  · intro s h hbad
    simp only [getAmountEnv, h, Option.getD, parseUnitsJs]
    rw [if_pos (by decide)]
    unfold parseUnits
    rw [show ((18 : Int).toNat) = 18 from rfl, hbad]
    simp
  · intro h
    simp only [getAmountEnv, h, Option.getD, parseUnitsJs]
    rw [if_pos (by decide)]
    rfl

/-- C8 witness: the deposit amount "1000" at 18 decimals. -/
theorem getAmountEnv_spec_witness :
    getAmountEnv envAmount1000 "MAX_USER_DEPOSIT" (.num 18) "1000" =
      .ok (1000 * 10 ^ 18) :=
  (getAmountEnv_spec envAmount1000 "MAX_USER_DEPOSIT" "1000").1 (by decide)

/-- C9: the trace contains a proxy deployment whose constructor arguments
are the implementation address returned by the implementation deployment and
the initializer data encoded against the "initialize" entry point with
exactly the arguments (asset, strategy address from the strategy deployment,
verifier, maxUserDeposit, maxTotalDeposit), in that order. -/
theorem proxy_constructor_args (env : Env) (client : ChainClient) (cfg : DeployConfig)
    (s i : Address)
    (hc : loadConfig env = .ok cfg)
    (hs : client.deployStrategyResult = .ok s)
    (hi : client.deployImplementationResult = .ok i) :
    ChainOp.deployProxy i (encodeFunctionData "initialize"
      [.addr cfg.asset, .addr s, .addr cfg.verifier,
        .amount cfg.maxUserDeposit, .amount cfg.maxTotalDeposit])
      ∈ (runScript env client).ops := by
  rw [runScript_ok env client cfg hc]
  unfold deploySequence
  simp only [hs, hi]
  rcases hP : client.deployProxyResult with e | p <;> simp only [hP]
  · simp
  rcases hV : client.setVaultResult with e | u <;> simp only [hV]
  · simp
  · obtain ⟨t, ht⟩ := rebalancerStep_ops_append cfg client _ s i p
    rw [ht]
    simp

/-- C9 witness: the scenario run contains the proxy deployment with the
encoded initializer. -/
theorem proxy_constructor_args_witness :
    ChainOp.deployProxy addrImpl (encodeFunctionData "initialize"
      [.addr cfgScenario.asset, .addr addrStrategy, .addr cfgScenario.verifier,
        .amount cfgScenario.maxUserDeposit, .amount cfgScenario.maxTotalDeposit])
      ∈ (runScript envScenario clientOK).ops :=
  proxy_constructor_args envScenario clientOK cfgScenario addrStrategy addrImpl
    (by decide) rfl rfl

/-- C10: with `REBALANCER_ADDRESS` set to the empty string the loaded
configuration carries the empty string in its rebalancer field, the
rebalancer write is never issued, and the whole run is identical to the run
with the variable absent. -/
theorem empty_rebalancer_like_absent (env : Env) (client : ChainClient) (cfg : DeployConfig)
    (hr : env "REBALANCER_ADDRESS" = some "")
    (hc : loadConfig env = .ok cfg) :
    cfg.rebalancer = some "" ∧
    (∀ r, ChainOp.setRebalancer r ∉ (runScript env client).ops) ∧
    runScript env client = runScript (envWithout env "REBALANCER_ADDRESS") client := by
  have hreb : cfg.rebalancer = some "" := by
    rw [(loadConfig_ok_spec env cfg hc).2.2.2.2.2.2.2.1, hr]
  refine ⟨hreb, ?_, ?_⟩
  · intro r hmem
    rw [runScript_ok env client cfg hc] at hmem
    obtain ⟨h1, h2, _⟩ := setRebalancer_mem_deploySequence cfg client r hmem
    rw [hreb] at h1
    injection h1 with h1
    exact h2 h1.symm
  · have hc2 : loadConfig (envWithout env "REBALANCER_ADDRESS") =
        .ok { cfg with rebalancer := none } := by
      rw [loadConfig_envWithoutReb, hc]
      rfl
    rw [runScript_ok env client cfg hc,
      runScript_ok _ client { cfg with rebalancer := none } hc2,
      deploySequence_erase_rebalancer cfg client hreb]

/-- C10 witness: the base environment with an empty-string rebalancer loads
the empty string and issues no rebalancer write. -/
theorem empty_rebalancer_like_absent_witness :
    cfgRebalancerEmpty.rebalancer = some "" ∧
    ChainOp.setRebalancer "" ∉ (runScript envRebalancerEmpty clientOK).ops :=
  ⟨(empty_rebalancer_like_absent envRebalancerEmpty clientOK cfgRebalancerEmpty
      (by decide) (by decide)).1,
    (empty_rebalancer_like_absent envRebalancerEmpty clientOK cfgRebalancerEmpty
      (by decide) (by decide)).2.1 ""⟩
